import Mathlib

/-!
Shallow embedding of `crates/workspace/src/sidebar.rs` (the sidebar button
composer `SidebarButtons`) and proofs about it.

Modelling conventions:
- `A` is the (opaque) type of actions (`Box<dyn Action>` in the source); the
  embedding only ever passes actions around, so it is a type parameter.
- `E` is the type of injected extra bottom items (`AnyView` in the source).
- Focus handles and subscriptions are opaque; they are modelled by `Nat` ids.
- The click handler of a button is a closure executing two statements; it is
  modelled by its trace, a list of `Effect`s in execution order.
- A `right_click_menu` trigger is a closure from the menu's open flag
  (`is_active` in the source) to the rendered icon button; it is modelled by a
  function `Bool → IconButtonModel A`.
- A context-menu entry whose handler calls `panel.set_position(position, ...)`
  is modelled by recording `position` in the entry's `target` field.
-/

namespace SidebarSpec

/-- `SidebarSide` from sidebar.rs (lines 13-17). -/
inductive SidebarSide where
  | Left
  | Right
deriving DecidableEq

/-- Modelled from the spec: `DockPosition` is declared in the dock module
(`crate::dock`), which is not part of the given sources; the spec describes it
as the enumeration {Left, Right, Bottom} of a panel's host region. -/
inductive DockPosition where
  | Left
  | Right
  | Bottom
deriving DecidableEq

/-- Modelled from the spec: `DockPosition::label` lives in the dock module,
outside the given sources. The spec uses it only symbolically, in the menu
entry label `"Dock <p.label>"` and the tooltip `"Close <Position> Dock"`; we
give each position its name as its label (distinct per position). -/
def DockPosition.label : DockPosition → String
  | .Left => "Left"
  | .Right => "Right"
  | .Bottom => "Bottom"

/-- `gpui::Corner`; only the corners used by sidebar.rs matter here. -/
inductive Corner where
  | TopLeft
  | TopRight
  | BottomLeft
  | BottomRight
deriving DecidableEq

/-- A panel behind `Arc<dyn PanelHandle>`, with the capabilities sidebar.rs
consumes: `persistent_name`, optional `icon`, optional `icon_tooltip`,
`toggle_action`, `position_is_valid`. (`set_position` is an effect; menu
entries record their target position instead, see `MenuEntry`.) -/
structure Panel (A : Type) where
  persistent_name : String
  icon : Option String
  icon_tooltip : Option String
  toggle_action : A
  position_is_valid : DockPosition → Bool

/-- A dock, with the fields sidebar.rs reads in `collect_buttons_from_dock`:
`position`, `is_open`, `active_panel_index`, `toggle_action`, `focus_handle`,
and the ordered panel list `panels`. -/
structure Dock (A : Type) where
  position : DockPosition
  is_open : Bool
  active_panel_index : Option Nat
  toggle_action : A
  focus_handle : Nat
  panels : List (Panel A)

/-- One primitive effect performed by a button's click handler. -/
inductive Effect (A : Type) where
  | focus (handle : Nat)
  | dispatch (action : A)
deriving DecidableEq

/-- One entry of the relocate context menu: its label and the `DockPosition`
its handler passes to `panel.set_position`. -/
structure MenuEntry where
  label : String
  target : DockPosition
deriving DecidableEq

/-- The `IconButton` built by the trigger closure in `render_panel_button`:
its id `(name, is_active_button as u64)`, icon, `toggle_state`, the click
handler's effect trace, and the attached tooltip (text and action), present
only when the trigger closure's `is_active` flag is false. -/
structure IconButtonModel (A : Type) where
  id : String × Nat
  icon : String
  toggle_state : Bool
  on_click : List (Effect A)
  tooltip : Option (String × A)

/-- The value produced by `render_panel_button`: a `right_click_menu` wrapper
holding the menu entries, its anchor/attach corners, and the trigger closure
(from the menu-open flag to the icon button). -/
structure PanelButton (A : Type) where
  name : String
  menu : List MenuEntry
  menu_anchor : Corner
  menu_attach : Corner
  trigger : Bool → IconButtonModel A

/-- The `POSITIONS` constant inside `render_panel_button` (lines 103-107). -/
def POSITIONS : List DockPosition :=
  [DockPosition.Left, DockPosition.Right, DockPosition.Bottom]

/-- The menu-building loop inside `render_panel_button` (lines 109-125):
starting from an empty menu, for each position in `POSITIONS`, if it differs
from the panel's current dock position and `position_is_valid` holds, append
one entry labeled `"Dock <label>"` whose handler calls `set_position`. -/
def build_menu_entries {A : Type} (panel : Panel A) (dock_position : DockPosition) :
    List MenuEntry :=
  POSITIONS.foldl
    (fun menu position =>
      if position ≠ dock_position ∧ panel.position_is_valid position = true then
        menu ++ [{ label := "Dock " ++ position.label, target := position }]
      else
        menu)
    []

/-- `SidebarButtons::render_panel_button` (lines 71-150). Returns `none` when
the panel lacks an icon or an icon tooltip; otherwise builds the
right-click-menu-wrapped icon button. -/
def render_panel_button {A : Type} (side : SidebarSide) (panel : Panel A)
    ( is_active_button : Bool) (dock_position : DockPosition) (toggle_action : A)
    (focus_handle : Nat) : Option (PanelButton A) := do
  let icon ← panel.icon
  let icon_tooltip ← panel.icon_tooltip
  let name := panel.persistent_name
  let (action, tooltip) : A × String :=
    if is_active_button then
      (toggle_action, "Close " ++ dock_position.label ++ " Dock")
    else
      (panel.toggle_action, icon_tooltip)
  let (menu_anchor, menu_attach) :=
    match side with
    | SidebarSide.Left => (Corner.TopLeft, Corner.TopRight)
    | SidebarSide.Right => (Corner.TopRight, Corner.TopLeft)
  some
    { name := name
      menu := build_menu_entries panel dock_position
      menu_anchor := menu_anchor
      menu_attach := menu_attach
      trigger := fun is_active =>
        { id := (name, is_active_button.toNat)
          icon := icon
          toggle_state := is_active_button
          on_click := [Effect.focus focus_handle, Effect.dispatch action]
          tooltip := if !is_active then some (tooltip, action) else none } }

/-- An element pushed into the top/bottom button lists: either a panel button
(`button.into_any_element()`) or an injected extra item (`AnyView`). -/
inductive SidebarElem (A E : Type) where
  | button (b : PanelButton A)
  | extra (item : E)

/-- The `for (i, panel) in dock_read.panels().enumerate()` loop body of
`collect_buttons_from_dock` (lines 169-195), written as structural recursion
over the remaining panels with the running index `i` explicit. -/
def collect_from {A E : Type} (side : SidebarSide) (dock : Dock A)
    (top_names bottom_names : List String) (i : Nat) (panels : List (Panel A))
    (top_buttons bottom_buttons : List (SidebarElem A E)) :
    List (SidebarElem A E) × List (SidebarElem A E) :=
  match panels with
  | [] => (top_buttons, bottom_buttons)
  | panel :: rest =>
    let name := panel.persistent_name
    let is_active_button := (some i == dock.active_panel_index) && dock.is_open
    let should_show_in_top := top_names.contains name
    let should_show_in_bottom := bottom_names.contains name
    if !should_show_in_top && !should_show_in_bottom then
      collect_from side dock top_names bottom_names (i + 1) rest
        top_buttons bottom_buttons
    else
      match render_panel_button side panel is_active_button dock.position
          dock.toggle_action dock.focus_handle with
      | some button =>
        if should_show_in_top then
          collect_from side dock top_names bottom_names (i + 1) rest
            (top_buttons ++ [SidebarElem.button button]) bottom_buttons
        else if should_show_in_bottom then
          collect_from side dock top_names bottom_names (i + 1) rest
            top_buttons (bottom_buttons ++ [SidebarElem.button button])
        else
          collect_from side dock top_names bottom_names (i + 1) rest
            top_buttons bottom_buttons
      | none =>
        collect_from side dock top_names bottom_names (i + 1) rest
          top_buttons bottom_buttons

/-- `SidebarButtons::collect_buttons_from_dock` (lines 152-196). -/
def collect_buttons_from_dock {A E : Type} (side : SidebarSide) (dock : Dock A)
    (top_names bottom_names : List String)
    (top_buttons bottom_buttons : List (SidebarElem A E)) :
    List (SidebarElem A E) × List (SidebarElem A E) :=
  collect_from side dock top_names bottom_names 0 dock.panels
    top_buttons bottom_buttons

/-- `SidebarButtons::get_top_panel_names` (lines 57-62), as a function of the
side field it matches on. -/
def get_top_panel_names : SidebarSide → List String
  | SidebarSide.Left => ["Project Panel", "GitPanel", "Outline Panel", "CollabPanel"]
  | SidebarSide.Right => ["AgentPanel", "AgentsPanel", "NotificationPanel"]

/-- `SidebarButtons::get_bottom_panel_names` (lines 64-69). -/
def get_bottom_panel_names : SidebarSide → List String
  | SidebarSide.Left => ["TerminalPanel", "DebugPanel"]
  | SidebarSide.Right => []

/-- The `SidebarButtons` composer state (lines 19-26). Subscriptions are
opaque handles. -/
structure SidebarButtons (A E : Type) where
  side : SidebarSide
  left_dock : Dock A
  bottom_dock : Dock A
  right_dock : Dock A
  bottom_items : List E
  subscriptions : List Nat

/-- `SidebarButtons::add_bottom_item` (lines 52-55): pushes the item onto
`bottom_items` (the `cx.notify()` re-render scheduling is external). -/
def SidebarButtons.add_bottom_item {A E : Type} (s : SidebarButtons A E) (item : E) :
    SidebarButtons A E :=
  { s with bottom_items := s.bottom_items ++ [item] }

/-- The result of one render: the two button groups and whether the divider
element is present between them. -/
structure RenderedSidebar (A E : Type) where
  top_buttons : List (SidebarElem A E)
  has_divider : Bool
  bottom_buttons : List (SidebarElem A E)

/-- `<SidebarButtons as Render>::render` (lines 199-257). The source method
takes `&mut self` but assigns no field, so the state-passing translation
returns the state unchanged alongside the rendered output. The divider child
is inserted by `.when(has_top_buttons && has_bottom_buttons, ...)`. -/
def SidebarButtons.renderM {A E : Type} (s : SidebarButtons A E) :
    SidebarButtons A E × RenderedSidebar A E :=
  let top_names := get_top_panel_names s.side
  let bottom_names := get_bottom_panel_names s.side
  let acc1 : List (SidebarElem A E) × List (SidebarElem A E) :=
    collect_buttons_from_dock s.side s.left_dock top_names bottom_names [] []
  let acc2 := collect_buttons_from_dock s.side s.bottom_dock
    top_names bottom_names acc1.1 acc1.2
  let acc3 := collect_buttons_from_dock s.side s.right_dock
    top_names bottom_names acc2.1 acc2.2
  let top_buttons := acc3.1
  let bottom_buttons := acc3.2 ++ s.bottom_items.map SidebarElem.extra
  let has_top_buttons := !top_buttons.isEmpty
  let has_bottom_buttons := !bottom_buttons.isEmpty
  (s,
    { top_buttons := top_buttons
      has_divider := has_top_buttons && has_bottom_buttons
      bottom_buttons := bottom_buttons })

/-! ### Characterization helpers -/

/-- The list of `(index, element)` pairs starting at index `i`: the shape of
`iterator.enumerate()` with an explicit starting index for induction. -/
def indexed_from {α : Type} (i : Nat) : List α → List (Nat × α)
  | [] => []
  | x :: xs => (i, x) :: indexed_from (i + 1) xs

/-- What one loop iteration of `collect_buttons_from_dock` contributes to the
top list for the panel at index `i`: a button exactly when the panel's name is
in `top_names` and `render_panel_button` succeeds. -/
def top_button_of_panel {A E : Type} (side : SidebarSide) (dock : Dock A)
    (top_names : List String) (i : Nat) (panel : Panel A) :
    Option (SidebarElem A E) :=
  if top_names.contains panel.persistent_name = true then
    (render_panel_button side panel
        ((some i == dock.active_panel_index) && dock.is_open) dock.position
        dock.toggle_action dock.focus_handle).map SidebarElem.button
  else none

/-- What one loop iteration of `collect_buttons_from_dock` contributes to the
bottom list for the panel at index `i`: a button exactly when the panel's name
is in `bottom_names` but not in `top_names` (the source checks top first) and
`render_panel_button` succeeds. -/
def bottom_button_of_panel {A E : Type} (side : SidebarSide) (dock : Dock A)
    (top_names bottom_names : List String) (i : Nat) (panel : Panel A) :
    Option (SidebarElem A E) :=
  if top_names.contains panel.persistent_name = false ∧
      bottom_names.contains panel.persistent_name = true then
    (render_panel_button side panel
        ((some i == dock.active_panel_index) && dock.is_open) dock.position
        dock.toggle_action dock.focus_handle).map SidebarElem.button
  else none

theorem collect_from_eq {A E : Type} (side : SidebarSide) (dock : Dock A)
    (tn bn : List String) (panels : List (Panel A)) :
    ∀ (i : Nat) (t0 b0 : List (SidebarElem A E)),
      collect_from side dock tn bn i panels t0 b0 =
        (t0 ++ (indexed_from i panels).filterMap
            (fun p => top_button_of_panel side dock tn p.1 p.2),
         b0 ++ (indexed_from i panels).filterMap
            (fun p => bottom_button_of_panel side dock tn bn p.1 p.2)) := by
  induction panels with
  | nil =>
    intro i t0 b0
    simp [collect_from, indexed_from]
  | cons panel rest ih =>
    intro i t0 b0
    simp only [collect_from, indexed_from, List.filterMap_cons]
    by_cases htop : panel.persistent_name ∈ tn <;>
      by_cases hbot : panel.persistent_name ∈ bn <;>
      cases hr : render_panel_button side panel
          ((some i == dock.active_panel_index) && dock.is_open) dock.position
          dock.toggle_action dock.focus_handle <;>
      simp [htop, hbot, hr, top_button_of_panel, bottom_button_of_panel, ih,
        List.append_assoc]

theorem render_panel_button_some {A : Type} {side : SidebarSide}
    {panel : Panel A} {flag : Bool} {pos : DockPosition} {act : A} {fh : Nat}
    {b : PanelButton A}
    (hb : render_panel_button side panel flag pos act fh = some b) :
    ∃ icon tt, panel.icon = some icon ∧ panel.icon_tooltip = some tt ∧
      b.name = panel.persistent_name ∧
      b.menu = build_menu_entries panel pos ∧
      ∀ mo : Bool, b.trigger mo =
        { id := (panel.persistent_name, flag.toNat)
          icon := icon
          toggle_state := flag
          on_click := [Effect.focus fh,
            Effect.dispatch (if flag then act else panel.toggle_action)]
          tooltip := if mo then none else
            some (if flag then "Close " ++ pos.label ++ " Dock" else tt,
              if flag then act else panel.toggle_action) } := by
  cases hi : panel.icon with
  | none => simp [render_panel_button, hi] at hb
  | some icon =>
    cases ht : panel.icon_tooltip with
    | none => simp [render_panel_button, hi, ht] at hb
    | some tt =>
      refine ⟨icon, tt, rfl, rfl, ?_⟩
      cases flag <;>
        simp only [render_panel_button, hi, ht, Option.bind_eq_bind,
          Option.some_bind, Bool.false_eq_true, if_false, if_true,
          Option.some.injEq] at hb <;>
        subst hb <;>
        exact ⟨rfl, rfl, fun mo => by cases mo <;> rfl⟩

/-! ### Concrete fixtures used by witnesses -/

/-- A concrete panel with icon and tooltip, hosted by `wdock`. -/
def wpanel : Panel Nat :=
  { persistent_name := "Project Panel"
    icon := some "FileTree"
    icon_tooltip := some "Project Panel"
    toggle_action := 7
    position_is_valid := fun _ => true }

/-- A concrete open dock whose active panel is `wpanel` at index 0. -/
def wdock : Dock Nat :=
  { position := DockPosition.Left
    is_open := true
    active_panel_index := some 0
    toggle_action := 42
    focus_handle := 5
    panels := [wpanel] }

/-- A concrete panel lacking an icon. -/
def panelNoIcon : Panel Nat :=
  { persistent_name := "Project Panel"
    icon := none
    icon_tooltip := some "Project Panel"
    toggle_action := 8
    position_is_valid := fun _ => true }

/-- A concrete panel whose name sits in no allow-list of the Left side. -/
def epanel : Panel Nat :=
  { persistent_name := "AgentPanel"
    icon := some "Ai"
    icon_tooltip := some "Agent Panel"
    toggle_action := 9
    position_is_valid := fun _ => true }

/-- A concrete dock hosting only `epanel`. -/
def edock : Dock Nat :=
  { position := DockPosition.Right
    is_open := true
    active_panel_index := some 0
    toggle_action := 43
    focus_handle := 6
    panels := [epanel] }

/-- A concrete dock with no panels. -/
def emptyDock : Dock Nat :=
  { position := DockPosition.Right
    is_open := false
    active_panel_index := none
    toggle_action := 44
    focus_handle := 7
    panels := [] }

/-- A concrete Right-side composer with three empty docks and no extra items. -/
def emptySidebar : SidebarButtons Nat Nat :=
  { side := SidebarSide.Right
    left_dock := emptyDock
    bottom_dock := emptyDock
    right_dock := emptyDock
    bottom_items := []
    subscriptions := [0, 1, 2, 3] }

/-! ### Claim theorems -/

/-- C1: for a panel at index `i` of a dock, the button the collector builds for
it (whose `is_active_button` argument is `Some(i) == active_panel_index &&
is_open`, line 171) has its pressed flag true iff `some i` equals the dock's
`active_panel_index` and the dock is open; when that flag is true the click
handler dispatches the dock's own `toggle_action` and the tooltip text is
`"Close <Position> Dock"`, otherwise it dispatches the panel's `toggle_action`
and the tooltip text is the panel's icon tooltip. -/
theorem c1_active_flag_action_tooltip {A : Type} (side : SidebarSide)
    (dock : Dock A) (i : Nat) (panel : Panel A) (b : PanelButton A)
    (hpanel : dock.panels.get? i = some panel)
    (hb : render_panel_button side panel
        ((some i == dock.active_panel_index) && dock.is_open) dock.position
        dock.toggle_action dock.focus_handle = some b) :
    (∀ mo : Bool, ((b.trigger mo).toggle_state = true ↔
        (some i = dock.active_panel_index ∧ dock.is_open = true)))
    ∧ (((some i == dock.active_panel_index) && dock.is_open) = true →
        (∀ mo : Bool, (b.trigger mo).on_click =
          [Effect.focus dock.focus_handle, Effect.dispatch dock.toggle_action])
        ∧ (b.trigger false).tooltip =
            some ("Close " ++ dock.position.label ++ " Dock", dock.toggle_action))
    ∧ (((some i == dock.active_panel_index) && dock.is_open) = false →
        ∃ tt, panel.icon_tooltip = some tt ∧
        (∀ mo : Bool, (b.trigger mo).on_click =
          [Effect.focus dock.focus_handle, Effect.dispatch panel.toggle_action])
        ∧ (b.trigger false).tooltip = some (tt, panel.toggle_action)) := by
  obtain ⟨icon, tt, hi, ht, hname, hmenu, htrig⟩ := render_panel_button_some hb
  refine ⟨fun mo => ?_, fun hact => ⟨fun mo => ?_, ?_⟩,
    fun hact => ⟨tt, ht, fun mo => ?_, ?_⟩⟩
  · rw [htrig mo]
    simp [Bool.and_eq_true, beq_iff_eq]
  · rw [htrig mo]
    simp [hact]
  · rw [htrig false]
    simp [hact]
  · rw [htrig mo]
    simp [hact]
  · rw [htrig false]
    simp [hact]

theorem c1_witness :
    wdock.panels.get? 0 = some wpanel ∧
    ∃ b, render_panel_button SidebarSide.Left wpanel
        ((some 0 == wdock.active_panel_index) && wdock.is_open) wdock.position
        wdock.toggle_action wdock.focus_handle = some b ∧
      (∀ mo : Bool, ((b.trigger mo).toggle_state = true ↔
        (some 0 = wdock.active_panel_index ∧ wdock.is_open = true))) :=
  ⟨rfl, _, rfl,
    (c1_active_flag_action_tooltip SidebarSide.Left wdock 0 wpanel _ rfl rfl).1⟩

/-- C5: `render_panel_button` emits a button iff the panel has both an icon
and an icon tooltip (lines 81-82, the two early `?` returns); when either is
missing, the collector's loop iteration for that panel leaves both
accumulators unchanged — silent omission, no error value exists. -/
theorem c5_button_iff_icon_and_tooltip {A E : Type} (side : SidebarSide)
    (panel : Panel A) (flag : Bool) (pos : DockPosition) (act : A) (fh : Nat) :
    (render_panel_button side panel flag pos act fh).isSome =
      (panel.icon.isSome && panel.icon_tooltip.isSome)
    ∧ (∀ (dock : Dock A) (tn bn : List String) (i : Nat)
        (t0 b0 : List (SidebarElem A E)),
        (panel.icon.isSome && panel.icon_tooltip.isSome) = false →
        collect_from side dock tn bn i [panel] t0 b0 = (t0, b0)) := by
  constructor
  · cases hi : panel.icon <;> cases ht : panel.icon_tooltip <;>
      simp [render_panel_button, hi, ht]
  · intro dock tn bn i t0 b0 h
    have hnone : render_panel_button side panel
        ((some i == dock.active_panel_index) && dock.is_open) dock.position
        dock.toggle_action dock.focus_handle = none := by
      cases hi : panel.icon <;> cases ht : panel.icon_tooltip <;>
        simp [render_panel_button, hi, ht] <;> simp [hi, ht] at h
    by_cases htop : panel.persistent_name ∈ tn <;>
      by_cases hbot : panel.persistent_name ∈ bn <;>
      simp [collect_from, htop, hbot, hnone]

theorem c5_witness :
    ((panelNoIcon.icon.isSome && panelNoIcon.icon_tooltip.isSome) = false) ∧
    collect_from SidebarSide.Left wdock ["Project Panel"] [] 0 [panelNoIcon]
      ([] : List (SidebarElem Nat Nat)) [] = ([], []) :=
  ⟨rfl,
    (c5_button_iff_icon_and_tooltip SidebarSide.Left panelNoIcon false
        DockPosition.Left 0 0).2 wdock ["Project Panel"] [] 0 [] [] rfl⟩

/-- C8: every emitted button's click handler performs exactly two effects, in
order: focus the owning dock's `focus_handle`, then dispatch the button's
action (lines 136-139) — for either value of the menu-open flag. -/
theorem c8_click_handler_effects {A : Type} (side : SidebarSide)
    (panel : Panel A) (flag : Bool) (pos : DockPosition) (act : A) (fh : Nat)
    (b : PanelButton A)
    (hb : render_panel_button side panel flag pos act fh = some b) :
    ∀ mo : Bool, (b.trigger mo).on_click =
      [Effect.focus fh,
        Effect.dispatch (if flag then act else panel.toggle_action)] := by
  obtain ⟨icon, tt, hi, ht, hname, hmenu, htrig⟩ := render_panel_button_some hb
  intro mo
  rw [htrig mo]

theorem c8_witness :
    ∃ b, render_panel_button SidebarSide.Left wpanel true DockPosition.Left
        (42 : Nat) 5 = some b ∧
      ∀ mo : Bool, (b.trigger mo).on_click =
        [Effect.focus 5,
          Effect.dispatch (if true then (42 : Nat) else wpanel.toggle_action)] :=
  ⟨_, rfl,
    c8_click_handler_effects SidebarSide.Left wpanel true DockPosition.Left
      42 5 _ rfl⟩

/-- C9: a tooltip is attached to an emitted button iff the relocate context
menu is not currently open (the `.when(!is_active, ...)` at line 141, where
`is_active` is the right-click-menu trigger's open flag) — independently of
the `is_active_button` flag, which is universally quantified here. -/
theorem c9_tooltip_iff_menu_closed {A : Type} (side : SidebarSide)
    (panel : Panel A) (flag : Bool) (pos : DockPosition) (act : A) (fh : Nat)
    (b : PanelButton A)
    (hb : render_panel_button side panel flag pos act fh = some b) :
    ∀ mo : Bool, (b.trigger mo).tooltip.isSome = !mo
      ∧ ((b.trigger mo).tooltip.isSome = true ↔ mo = false) := by
  obtain ⟨icon, tt, hi, ht, hname, hmenu, htrig⟩ := render_panel_button_some hb
  intro mo
  rw [htrig mo]
  cases mo <;> simp

theorem c9_witness :
    ∃ b, render_panel_button SidebarSide.Left wpanel true DockPosition.Left
        (42 : Nat) 5 = some b ∧
      ∀ mo : Bool, (b.trigger mo).tooltip.isSome = !mo
        ∧ ((b.trigger mo).tooltip.isSome = true ↔ mo = false) :=
  ⟨_, rfl,
    c9_tooltip_iff_menu_closed SidebarSide.Left wpanel true DockPosition.Left
      42 5 _ rfl⟩

/-- C10: `add_bottom_item` appends exactly one item at the end of
`bottom_items` and leaves every other composer field unchanged; `render`
(which takes `&mut self` but assigns no field) returns the composer state
unchanged. -/
theorem c10_add_bottom_item_frame {A E : Type} (s : SidebarButtons A E)
    (item : E) :
    (s.add_bottom_item item).bottom_items = s.bottom_items ++ [item]
    ∧ (s.add_bottom_item item).side = s.side
    ∧ (s.add_bottom_item item).left_dock = s.left_dock
    ∧ (s.add_bottom_item item).bottom_dock = s.bottom_dock
    ∧ (s.add_bottom_item item).right_dock = s.right_dock
    ∧ (s.add_bottom_item item).subscriptions = s.subscriptions
    ∧ (s.renderM).1 = s :=
  ⟨rfl, rfl, rfl, rfl, rfl, rfl, rfl⟩

theorem collect_from_excluded {A E : Type} (side : SidebarSide) (dock : Dock A)
    (tn bn : List String) :
    ∀ (panels : List (Panel A)) (i : Nat) (t0 b0 : List (SidebarElem A E)),
      (∀ p ∈ panels, tn.contains p.persistent_name = false ∧
        bn.contains p.persistent_name = false) →
      collect_from side dock tn bn i panels t0 b0 = (t0, b0) := by
  intro panels
  induction panels with
  | nil => intro i t0 b0 _; rfl
  | cons panel rest ih =>
    intro i t0 b0 h
    have hp := h panel (List.mem_cons_self _ _)
    have hrest : ∀ p ∈ rest, tn.contains p.persistent_name = false ∧
        bn.contains p.persistent_name = false :=
      fun p hq => h p (List.mem_cons_of_mem _ hq)
    simp only [collect_from, hp.1, hp.2, Bool.not_false, Bool.and_self, if_true]
    exact ih (i + 1) t0 b0 hrest

/-- C2 counterexample: the Left-side top allow-list does not contain the
persistent names `"ProjectPanel"` and `"OutlinePanel"` that the claim lists;
the literal names in the source are `"Project Panel"` and `"Outline Panel"`
(line 59), so the claimed list is not the code's list. -/
theorem c2_counterexample :
    ¬ ("ProjectPanel" ∈ get_top_panel_names SidebarSide.Left)
    ∧ ("Project Panel" ∈ get_top_panel_names SidebarSide.Left)
    ∧ ¬ ("OutlinePanel" ∈ get_top_panel_names SidebarSide.Left)
    ∧ ("Outline Panel" ∈ get_top_panel_names SidebarSide.Left)
    ∧ ¬ ("ProjectPanel" ∈ get_bottom_panel_names SidebarSide.Left)
    ∧ get_top_panel_names SidebarSide.Left ≠
        ["ProjectPanel", "GitPanel", "OutlinePanel", "CollabPanel"] := by
  simp [get_top_panel_names, get_bottom_panel_names]

/-- C2 (amended): the allow-lists are exactly Left top = {"Project Panel",
"GitPanel", "Outline Panel", "CollabPanel"}, Left bottom = {"TerminalPanel",
"DebugPanel"}, Right top = {"AgentPanel", "AgentsPanel",
"NotificationPanel"}, Right bottom = {}; and a dock in which every panel's
persistent name is in neither list for the current side contributes no button
at all, whichever dock it is. -/
theorem c2_allow_lists_amended {A E : Type} :
    get_top_panel_names SidebarSide.Left =
      ["Project Panel", "GitPanel", "Outline Panel", "CollabPanel"]
    ∧ get_bottom_panel_names SidebarSide.Left = ["TerminalPanel", "DebugPanel"]
    ∧ get_top_panel_names SidebarSide.Right =
      ["AgentPanel", "AgentsPanel", "NotificationPanel"]
    ∧ get_bottom_panel_names SidebarSide.Right = []
    ∧ (∀ (side : SidebarSide) (dock : Dock A)
        (t0 b0 : List (SidebarElem A E)),
        (∀ p ∈ dock.panels,
          (get_top_panel_names side).contains p.persistent_name = false ∧
          (get_bottom_panel_names side).contains p.persistent_name = false) →
        collect_buttons_from_dock side dock (get_top_panel_names side)
          (get_bottom_panel_names side) t0 b0 = (t0, b0)) :=
  ⟨rfl, rfl, rfl, rfl,
    fun side dock t0 b0 h =>
      collect_from_excluded side dock _ _ dock.panels 0 t0 b0 h⟩

theorem c2_witness :
    (∀ p ∈ edock.panels,
      (get_top_panel_names SidebarSide.Left).contains p.persistent_name = false ∧
      (get_bottom_panel_names SidebarSide.Left).contains p.persistent_name = false)
    ∧ collect_buttons_from_dock SidebarSide.Left edock
        (get_top_panel_names SidebarSide.Left)
        (get_bottom_panel_names SidebarSide.Left)
        ([] : List (SidebarElem Nat Nat)) [] = ([], []) := by
  have h : ∀ p ∈ edock.panels,
      (get_top_panel_names SidebarSide.Left).contains p.persistent_name = false ∧
      (get_bottom_panel_names SidebarSide.Left).contains p.persistent_name = false := by
    intro p hp
    simp only [edock, List.mem_singleton] at hp
    subst hp
    exact ⟨rfl, rfl⟩
  exact ⟨h, (@c2_allow_lists_amended Nat Nat).2.2.2.2 SidebarSide.Left edock [] [] h⟩

theorem divider_iff_aux {α : Type} (t b : List α) :
    ((!t.isEmpty && !b.isEmpty) = true) ↔ (t ≠ [] ∧ b ≠ []) := by
  cases t <;> cases b <;> simp

/-- C4: the divider is present iff both the top list and the bottom list are
non-empty, the bottom list taken after appending the injected extra items
(lines 239-255); a side with no classified panels and no extra items renders
zero buttons and no divider. -/
theorem c4_divider_iff_both_groups {A E : Type} (s : SidebarButtons A E) :
    ((s.renderM.2.has_divider = true) ↔
      (s.renderM.2.top_buttons ≠ [] ∧ s.renderM.2.bottom_buttons ≠ []))
    ∧ ((∀ p ∈ s.left_dock.panels ++ s.bottom_dock.panels ++ s.right_dock.panels,
          (get_top_panel_names s.side).contains p.persistent_name = false ∧
          (get_bottom_panel_names s.side).contains p.persistent_name = false) →
        s.bottom_items = [] →
        s.renderM.2.top_buttons = [] ∧ s.renderM.2.bottom_buttons = [] ∧
          s.renderM.2.has_divider = false) := by
  constructor
  · have hd : s.renderM.2.has_divider =
        (!s.renderM.2.top_buttons.isEmpty && !s.renderM.2.bottom_buttons.isEmpty) :=
      rfl
    rw [hd]
    exact divider_iff_aux _ _
  · intro h hb0
    have h1 : ∀ p ∈ s.left_dock.panels,
        (get_top_panel_names s.side).contains p.persistent_name = false ∧
        (get_bottom_panel_names s.side).contains p.persistent_name = false :=
      fun p hp => h p (by simp [hp])
    have h2 : ∀ p ∈ s.bottom_dock.panels,
        (get_top_panel_names s.side).contains p.persistent_name = false ∧
        (get_bottom_panel_names s.side).contains p.persistent_name = false :=
      fun p hp => h p (by simp [hp])
    have h3 : ∀ p ∈ s.right_dock.panels,
        (get_top_panel_names s.side).contains p.persistent_name = false ∧
        (get_bottom_panel_names s.side).contains p.persistent_name = false :=
      fun p hp => h p (by simp [hp])
    have e1 := collect_from_excluded s.side s.left_dock
      (get_top_panel_names s.side) (get_bottom_panel_names s.side)
      s.left_dock.panels 0 ([] : List (SidebarElem A E)) [] h1
    simp only [SidebarButtons.renderM, collect_buttons_from_dock, e1]
    have e2 := collect_from_excluded s.side s.bottom_dock
      (get_top_panel_names s.side) (get_bottom_panel_names s.side)
      s.bottom_dock.panels 0 ([] : List (SidebarElem A E)) [] h2
    simp only [e2]
    have e3 := collect_from_excluded s.side s.right_dock
      (get_top_panel_names s.side) (get_bottom_panel_names s.side)
      s.right_dock.panels 0 ([] : List (SidebarElem A E)) [] h3
    simp only [e3, hb0]
    simp

theorem c4_witness :
    ((!(emptySidebar.renderM.2.top_buttons.isEmpty)
        && !(emptySidebar.renderM.2.bottom_buttons.isEmpty)) = false) ∧
    emptySidebar.renderM.2.top_buttons = [] ∧
    emptySidebar.renderM.2.bottom_buttons = [] ∧
    emptySidebar.renderM.2.has_divider = false := by
  have h := (c4_divider_iff_both_groups emptySidebar).2
    (by intro p hp; simp [emptySidebar, emptyDock] at hp) rfl
  exact ⟨rfl, h⟩

/-- C6: one render collects buttons from the docks in the fixed order left,
bottom, right (lines 211-237), preserving within each dock the stored panel
order (the collected lists are index-ordered `filterMap`s over the dock's
panel list), and the injected extra items come after every composer-derived
bottom button, in injection order (lines 239-241). -/
theorem c6_collection_order {A E : Type} (s : SidebarButtons A E) :
    (s.renderM.2.top_buttons =
      (collect_buttons_from_dock s.side s.left_dock (get_top_panel_names s.side)
          (get_bottom_panel_names s.side) ([] : List (SidebarElem A E)) []).1
      ++ (collect_buttons_from_dock s.side s.bottom_dock
          (get_top_panel_names s.side) (get_bottom_panel_names s.side)
          ([] : List (SidebarElem A E)) []).1
      ++ (collect_buttons_from_dock s.side s.right_dock
          (get_top_panel_names s.side) (get_bottom_panel_names s.side)
          ([] : List (SidebarElem A E)) []).1)
    ∧ (s.renderM.2.bottom_buttons =
      (collect_buttons_from_dock s.side s.left_dock (get_top_panel_names s.side)
          (get_bottom_panel_names s.side) ([] : List (SidebarElem A E)) []).2
      ++ (collect_buttons_from_dock s.side s.bottom_dock
          (get_top_panel_names s.side) (get_bottom_panel_names s.side)
          ([] : List (SidebarElem A E)) []).2
      ++ (collect_buttons_from_dock s.side s.right_dock
          (get_top_panel_names s.side) (get_bottom_panel_names s.side)
          ([] : List (SidebarElem A E)) []).2
      ++ s.bottom_items.map SidebarElem.extra)
    ∧ (∀ dock : Dock A,
        (collect_buttons_from_dock s.side dock (get_top_panel_names s.side)
            (get_bottom_panel_names s.side) ([] : List (SidebarElem A E)) []).1 =
          (indexed_from 0 dock.panels).filterMap
            (fun p => top_button_of_panel s.side dock
              (get_top_panel_names s.side) p.1 p.2)
        ∧ (collect_buttons_from_dock s.side dock (get_top_panel_names s.side)
            (get_bottom_panel_names s.side) ([] : List (SidebarElem A E)) []).2 =
          (indexed_from 0 dock.panels).filterMap
            (fun p => bottom_button_of_panel s.side dock
              (get_top_panel_names s.side) (get_bottom_panel_names s.side)
              p.1 p.2)) := by
  refine ⟨?_, ?_, fun dock => ⟨?_, ?_⟩⟩ <;>
    simp [SidebarButtons.renderM, collect_buttons_from_dock, collect_from_eq,
      List.append_assoc]

theorem collect_from_length {A E : Type} (side : SidebarSide) (dock : Dock A)
    (tn bn : List String) :
    ∀ (panels : List (Panel A)) (i : Nat) (t0 b0 : List (SidebarElem A E)),
      (collect_from side dock tn bn i panels t0 b0).1.length +
        (collect_from side dock tn bn i panels t0 b0).2.length ≤
        t0.length + b0.length + panels.length := by
  intro panels
  induction panels with
  | nil =>
    intro i t0 b0
    simp [collect_from]
  | cons panel rest ih =>
    intro i t0 b0
    by_cases htop : panel.persistent_name ∈ tn <;>
      by_cases hbot : panel.persistent_name ∈ bn <;>
      cases hr : render_panel_button side panel
          ((some i == dock.active_panel_index) && dock.is_open) dock.position
          dock.toggle_action dock.focus_handle <;>
      simp [collect_from, htop, hbot, hr] <;>
      refine le_trans (ih _ _ _) ?_ <;>
      simp [List.length_append] <;>
      omega

/-- C7: one collector iteration for a panel extends at most one of the two
accumulators — never both — and it extends the top one only when the panel's
name is in the side's static top list, the bottom one only when the name is in
the side's static bottom list and not the top list (lines 173-194); over any
panel list, at most one button per panel is added in total. -/
theorem c7_at_most_one_group {A E : Type} (side : SidebarSide) (dock : Dock A)
    (i : Nat) (panel : Panel A) (t0 b0 : List (SidebarElem A E)) :
    ((collect_from side dock (get_top_panel_names side)
        (get_bottom_panel_names side) i [panel] t0 b0).1 = t0
      ∨ (collect_from side dock (get_top_panel_names side)
        (get_bottom_panel_names side) i [panel] t0 b0).2 = b0)
    ∧ ((collect_from side dock (get_top_panel_names side)
          (get_bottom_panel_names side) i [panel] t0 b0).1 ≠ t0 →
        ∃ btn, (collect_from side dock (get_top_panel_names side)
            (get_bottom_panel_names side) i [panel] t0 b0).1 =
            t0 ++ [SidebarElem.button btn]
          ∧ (get_top_panel_names side).contains panel.persistent_name = true)
    ∧ ((collect_from side dock (get_top_panel_names side)
          (get_bottom_panel_names side) i [panel] t0 b0).2 ≠ b0 →
        ∃ btn, (collect_from side dock (get_top_panel_names side)
            (get_bottom_panel_names side) i [panel] t0 b0).2 =
            b0 ++ [SidebarElem.button btn]
          ∧ (get_bottom_panel_names side).contains panel.persistent_name = true
          ∧ (get_top_panel_names side).contains panel.persistent_name = false)
    ∧ (∀ ps : List (Panel A),
        (collect_from side dock (get_top_panel_names side)
            (get_bottom_panel_names side) i ps t0 b0).1.length +
          (collect_from side dock (get_top_panel_names side)
            (get_bottom_panel_names side) i ps t0 b0).2.length ≤
          t0.length + b0.length + ps.length) := by
  refine ⟨?_, ?_, ?_, fun ps => collect_from_length side dock _ _ ps i t0 b0⟩ <;>
    by_cases htop : panel.persistent_name ∈ get_top_panel_names side <;>
    by_cases hbot : panel.persistent_name ∈ get_bottom_panel_names side <;>
    cases hr : render_panel_button side panel
        ((some i == dock.active_panel_index) && dock.is_open) dock.position
        dock.toggle_action dock.focus_handle <;>
    simp [collect_from, htop, hbot, hr]

theorem c7_witness :
    (collect_from SidebarSide.Left wdock (get_top_panel_names SidebarSide.Left)
        (get_bottom_panel_names SidebarSide.Left) 0 [wpanel]
        ([] : List (SidebarElem Nat Nat)) []).1.length +
      (collect_from SidebarSide.Left wdock
        (get_top_panel_names SidebarSide.Left)
        (get_bottom_panel_names SidebarSide.Left) 0 [wpanel]
        ([] : List (SidebarElem Nat Nat)) []).2.length ≤
      ([] : List (SidebarElem Nat Nat)).length +
        ([] : List (SidebarElem Nat Nat)).length + [wpanel].length :=
  (c7_at_most_one_group SidebarSide.Left wdock 0 wpanel [] []).2.2.2 [wpanel]

theorem dock_entry_label_ne :
    ∀ p q : DockPosition, p ≠ q →
      ("Dock " ++ p.label) ≠ ("Dock " ++ q.label) := by
  intro p q h
  cases p <;> cases q <;> revert h <;> decide

theorem mem_POSITIONS : ∀ p : DockPosition, p ∈ POSITIONS := by
  intro p
  cases p <;> simp [POSITIONS]

theorem POSITIONS_nodup : POSITIONS.Nodup := by decide

theorem build_menu_entries_eq {A : Type} (panel : Panel A) (P : DockPosition) :
    build_menu_entries panel P =
      (POSITIONS.filter
          (fun p => decide (p ≠ P) && panel.position_is_valid p)).map
        (fun p => { label := "Dock " ++ p.label, target := p }) := by
  cases hL : panel.position_is_valid DockPosition.Left <;>
    cases hR : panel.position_is_valid DockPosition.Right <;>
    cases hB : panel.position_is_valid DockPosition.Bottom <;>
    cases P <;>
    simp [build_menu_entries, POSITIONS, hL, hR, hB]

/-- C3: the relocate menu enumerates Left, Right, Bottom in that fixed order;
it never holds an entry for the panel's current position `P` (neither by
target nor by label); for each other position with `position_is_valid` true it
holds exactly one entry, labeled `"Dock <label>"` and targeting that position
for `set_position`; positions with `position_is_valid` false get no entry; and
when no other position is valid the menu is empty. -/
theorem c3_relocate_menu {A : Type} (panel : Panel A) (P : DockPosition) :
    (∀ e ∈ build_menu_entries panel P,
        e.target ≠ P ∧ e.label ≠ "Dock " ++ P.label)
    ∧ (∀ p : DockPosition, p ≠ P → panel.position_is_valid p = true →
        (build_menu_entries panel P).count
          { label := "Dock " ++ p.label, target := p } = 1)
    ∧ (∀ p : DockPosition, panel.position_is_valid p = false →
        ∀ e ∈ build_menu_entries panel P, e.target ≠ p)
    ∧ ((build_menu_entries panel P).map MenuEntry.target =
        POSITIONS.filter (fun p => decide (p ≠ P) && panel.position_is_valid p))
    ∧ ((∀ p : DockPosition, p ≠ P → panel.position_is_valid p = false) →
        build_menu_entries panel P = []) := by
  refine ⟨?_, ?_, ?_, ?_, ?_⟩
  · intro e he
    rw [build_menu_entries_eq] at he
    simp only [List.mem_map, List.mem_filter, Bool.and_eq_true,
      decide_eq_true_eq] at he
    obtain ⟨p, ⟨_, hne, _⟩, rfl⟩ := he
    exact ⟨hne, dock_entry_label_ne p P hne⟩
  · intro p hne hvalid
    rw [build_menu_entries_eq]
    apply List.count_eq_one_of_mem
    · refine List.Nodup.map ?_ (List.Nodup.filter _ POSITIONS_nodup)
      intro a b hab
      simpa using congrArg MenuEntry.target hab
    · rw [List.mem_map]
      refine ⟨p, List.mem_filter.2 ⟨mem_POSITIONS p, ?_⟩, rfl⟩
      simp [hne, hvalid]
  · intro p hp e he
    rw [build_menu_entries_eq] at he
    simp only [List.mem_map, List.mem_filter, Bool.and_eq_true,
      decide_eq_true_eq] at he
    obtain ⟨q, ⟨_, _, hq⟩, rfl⟩ := he
    intro hqp
    rw [show MenuEntry.target { label := "Dock " ++ q.label, target := q } = q
      from rfl] at hqp
    subst hqp
    rw [hp] at hq
    exact Bool.false_ne_true hq
  · rw [build_menu_entries_eq, List.map_map]
    have hcomp : (MenuEntry.target ∘
        fun p : DockPosition => ({ label := "Dock " ++ p.label, target := p } :
          MenuEntry)) = id := by
      funext p
      rfl
    rw [hcomp, List.map_id]
  · intro h
    rw [build_menu_entries_eq]
    have hnil : POSITIONS.filter
        (fun p => decide (p ≠ P) && panel.position_is_valid p) = [] := by
      rw [List.filter_eq_nil_iff]
      intro a _
      by_cases hap : a = P
      · simp [hap]
      · simp [hap, h a hap]
    rw [hnil]
    rfl

theorem c3_witness :
    (DockPosition.Right ≠ DockPosition.Left)
    ∧ wpanel.position_is_valid DockPosition.Right = true
    ∧ (build_menu_entries wpanel DockPosition.Left).count
        { label := "Dock " ++ DockPosition.Right.label,
          target := DockPosition.Right } = 1 :=
  ⟨by decide, rfl,
    (c3_relocate_menu wpanel DockPosition.Left).2.1 DockPosition.Right
      (by decide) rfl⟩

end SidebarSpec
